import Mathlib

/-!
Verification of the Python signature client
(`src/app/api/auth/client/examples/python-example.py`) against its
specification.  The Python code is shallowly embedded: Python `str` is
Lean `String`, Python `None` is `Option.none`, raised exceptions are the
`Except.error` constructor, and dicts with a fixed key set are structures.
Calls into external libraries (the `cryptography` package, the system
clock, `datetime.isoformat`) are modelled explicitly where their
documented behaviour matters to the claims.
-/

namespace PySig

/-- Kind of key material a PEM blob decodes to, as distinguished by the
external `cryptography` library (`rsa`, or an elliptic-curve key on one
of the two curves the repository's key-generation helpers produce). -/
inductive KeyKind where
  | rsa
  | ecP256
  | ecP521
deriving DecidableEq

/-- Model of a PEM-encoded private key: `parsed` is the outcome of
`serialization.load_pem_private_key` from the external `cryptography`
library — either an error message (malformed key material) or the kind
of key the blob encodes. -/
structure PemKey where
  parsed : Except String KeyKind

/-- The exceptions the client can raise, one constructor per raise site:
`unsupportedAlgorithm` is the `ValueError` from `__init__`'s algorithm
check, `keyLoadError` the `ValueError` from `_load_private_key`,
`typeError` the `TypeError` that `str.join` raises on a non-string
element, and `signingFailure` the `RuntimeError` that wraps any
exception thrown inside `generate_signature`. -/
inductive PyError where
  | unsupportedAlgorithm (alg : String)
  | keyLoadError (msg : String)
  | typeError
  | signingFailure
deriving DecidableEq

/-- The `config` dict accepted by `PythonSignatureClient.__init__`:
`appId` and `privateKey` are accessed with `config[...]` (required),
the rest with `config.get(...)` (optional, `none` when absent). -/
structure Config where
  appId : String
  privateKey : PemKey
  algorithm : Option String
  keyId : Option String
  baseUrl : Option String

/-- The state a successfully constructed `PythonSignatureClient` holds. -/
structure Client where
  app_id : String
  private_key : PemKey
  algorithm : String
  key_id : Option String
  base_url : String
  private_key_obj : KeyKind

/-- The dict passed to `build_signature_string`.  The `body` field is
doubly optional: the outer `Option` records whether the key `'body'` is
present in the dict at all (`data.get('body', '')` falls back to `''`
only when it is absent), the inner `Option` is the stored Python value,
possibly `None`. -/
structure SigData where
  timestamp : String
  method : String
  path : String
  appId : String
  body : Option (Option String)

/-- ASCII model of Python `str.upper` on one character (the HTTP method
strings the client uppercases are ASCII). -/
def pyUpperChar (c : Char) : Char :=
  if 97 ≤ c.toNat ∧ c.toNat ≤ 122 then Char.ofNat (c.toNat - 32) else c

/-- ASCII model of Python `str.upper`. -/
def pyUpper (s : String) : String :=
  ⟨s.data.map pyUpperChar⟩

/-- Model of Python `sep.join(parts)` for parts already known to be
strings. -/
def pyJoin (sep : String) : List String → String
  | [] => ""
  | [s] => s
  | s :: rest => s ++ sep ++ pyJoin sep rest

/-- Checks that every joined element is a string (Python `str.join`
raises `TypeError` as soon as an element is `None`). -/
def optionAll : List (Option String) → Option (List String)
  | [] => some []
  | none :: _ => none
  | some s :: rest => (optionAll rest).map (fun l => s :: l)

/-- Python truthiness of an optional string: `None` and `''` are falsy. -/
def pyTruthy : Option String → Bool
  | none => false
  | some s => s != ""

/-- Model of the Python expression `a or b` for an optional string `a`:
the right operand is used when `a` is `None` or the empty string. -/
def pyOrElse (a : Option String) (b : String) : String :=
  match a with
  | none => b
  | some s => if s = "" then b else s

/-- The `SUPPORTED_ALGORITHMS` class constant. -/
def SUPPORTED_ALGORITHMS : List String := ["RS256", "RS512", "ES256", "ES512"]

/-- Embedding of `PythonSignatureClient.__init__` together with
`_load_private_key`: read the config (with the source's defaults), check
the algorithm against the supported list, then load the PEM key. -/
def clientInit (config : Config) : Except PyError Client :=
  let app_id := config.appId
  let algorithm := (config.algorithm).getD "RS256"
  let key_id := config.keyId
  let base_url := (config.baseUrl).getD ""
  if SUPPORTED_ALGORITHMS.contains algorithm then
    match (config.privateKey).parsed with
    | .error e => .error (.keyLoadError e)
    | .ok k =>
        .ok { app_id := app_id, private_key := config.privateKey,
              algorithm := algorithm, key_id := key_id, base_url := base_url,
              private_key_obj := k }
  else
    .error (.unsupportedAlgorithm algorithm)

/-- Embedding of `PythonSignatureClient.build_signature_string`: the five
parts in source order, `data.get('body', '')` modelled by the outer
`Option`'s default, joined by `'\n'.join` which fails on a `None`
element. -/
def build_signature_string (data : SigData) : Except PyError String :=
  let parts : List (Option String) :=
    [some data.timestamp,
     some (pyUpper data.method),
     some data.path,
     some data.appId,
     (data.body).getD (some "")]
  match optionAll parts with
  | none => .error .typeError
  | some strs => .ok (pyJoin "\n" strs)

/-- Embedding of `PythonSignatureClient.generate_signature`.  The
argument `sigBytes` models the base64-encoded output of the external
cryptography primitive for this client's key and algorithm; what the
source decides — which scheme is invoked and whether the call blows up
on a key of the wrong type — is kept explicit.  An RSA `sign` call on an
elliptic-curve key object (or an ECDSA call on an RSA key object) raises
inside the `try`, and the `except` clause converts every such exception
into a `RuntimeError`. -/
def generate_signature (c : Client) (sigBytes : String → String)
    (data : String) : Except PyError String :=
  if c.algorithm = "RS256" ∨ c.algorithm = "RS512" then
    match c.private_key_obj with
    | .rsa => .ok (sigBytes data)
    | _ => .error .signingFailure
  else if c.algorithm = "ES256" ∨ c.algorithm = "ES512" then
    match c.private_key_obj with
    | .rsa => .error .signingFailure
    | _ => .ok (sigBytes data)
  else
    .error .signingFailure

/-- Embedding of `PythonSignatureClient.generate_signature_headers`.
`now` is the string the clock-derived `generate_timestamp()` call would
produce; the source consults it only through the Python `or`.  The
`signature_data` dict always contains the key `'body'`, holding the
possibly-`None` argument. -/
def generate_signature_headers (c : Client) (sigBytes : String → String)
    (method path : String) (body : Option String)
    (custom_timestamp : Option String) (now : String) :
    Except PyError (List (String × String)) :=
  let timestamp := pyOrElse custom_timestamp now
  let signature_data : SigData :=
    { timestamp := timestamp, method := pyUpper method, path := path,
      appId := c.app_id, body := some body }
  match build_signature_string signature_data with
  | .error e => .error e
  | .ok data_string =>
    match generate_signature c sigBytes data_string with
    | .error e => .error e
    | .ok signature =>
      let headers := [("X-Signature", signature),
                      ("X-Timestamp", timestamp),
                      ("X-App-Id", c.app_id)]
      .ok (if pyTruthy c.key_id
           then headers ++ [("X-Key-Id", (c.key_id).getD "")]
           else headers)

/-- The decimal digit character for `n < 10`. -/
def digitChar (n : Nat) : Char := Char.ofNat (48 + n)

/-- Decimal digits of `n`, most significant first; `fuel` bounds the
recursion depth. -/
def natDigitsAux : Nat → Nat → List Char
  | 0, _ => []
  | fuel + 1, n =>
    if n < 10 then [digitChar n]
    else natDigitsAux fuel (n / 10) ++ [digitChar (n % 10)]

/-- Decimal digits of `n`, most significant first. -/
def natDigits (n : Nat) : List Char := natDigitsAux (n + 1) n

/-- Zero-padded decimal rendering, the model of Python's `%0wd`
formatting used inside `datetime.isoformat`. -/
def padNum (w n : Nat) : String :=
  ⟨List.replicate (w - (natDigits n).length) '0' ++ natDigits n⟩

/-- A clock reading as the fields of an aware `datetime` in the UTC
timezone. -/
structure DateTime where
  year : Nat
  month : Nat
  day : Nat
  hour : Nat
  minute : Nat
  second : Nat
  microsecond : Nat

/-- The date-and-time part of `datetime.isoformat`, down to whole
seconds. -/
def isoBase (d : DateTime) : String :=
  padNum 4 d.year ++ "-" ++ padNum 2 d.month ++ "-" ++ padNum 2 d.day ++
    "T" ++ padNum 2 d.hour ++ ":" ++ padNum 2 d.minute ++ ":" ++
    padNum 2 d.second

/-- The fractional-second part of `datetime.isoformat`: empty when the
microsecond field is zero, otherwise a dot and six digits. -/
def fracPart (d : DateTime) : String :=
  if d.microsecond = 0 then "" else "." ++ padNum 6 d.microsecond

/-- Model of `datetime.isoformat()` on an aware UTC `datetime` (external
Python standard library): date, time, fractional seconds when nonzero,
then the `+00:00` UTC offset. -/
def isoformat (d : DateTime) : String :=
  isoBase d ++ fracPart d ++ "+00:00"

/-- Whether `pat` is an initial segment of `s`. -/
def listStartsWith : List Char → List Char → Bool
  | [], _ => true
  | _ :: _, [] => false
  | p :: ps, c :: cs => p = c && listStartsWith ps cs

/-- Worker for the model of Python `str.replace`: scan left to right,
replacing each non-overlapping occurrence of `pat`. -/
def pyReplaceAux : Nat → List Char → List Char → List Char → List Char
  | 0, s, _, _ => s
  | _ + 1, [], _, _ => []
  | fuel + 1, c :: rest, pat, rep =>
    if !pat.isEmpty && listStartsWith pat (c :: rest) then
      rep ++ pyReplaceAux fuel ((c :: rest).drop pat.length) pat rep
    else
      c :: pyReplaceAux fuel rest pat rep

/-- Model of Python `str.replace` (all occurrences, left to right). -/
def pyReplace (s pat rep : String) : String :=
  ⟨pyReplaceAux s.data.length s.data pat.data rep.data⟩

/-- Embedding of `PythonSignatureClient.generate_timestamp`, applied to
the clock reading `now`:
`datetime.now(timezone.utc).isoformat().replace('+00:00', 'Z')`. -/
def generate_timestamp (now : DateTime) : String :=
  pyReplace (isoformat now) "+00:00" "Z"

/-- A string contains no newline character. -/
def noNL (s : String) : Prop := '\n' ∉ s.data

instance (s : String) : Decidable (noNL s) := by
  unfold noNL; infer_instance

/-- A stand-in for the base64-encoded output of the cryptographic
primitive, used in concrete test fixtures. -/
def sigStub : String → String := fun _ => "c2ln"

/-- A correctly configured RS256 client with an RSA key and no key id. -/
def client0 : Client :=
  { app_id := "app1", private_key := ⟨.ok .rsa⟩, algorithm := "RS256",
    key_id := none, base_url := "", private_key_obj := .rsa }

/-- A config pairing the RS256 algorithm with an elliptic-curve key. -/
def cfg3 : Config :=
  { appId := "app1", privateKey := ⟨.ok .ecP256⟩, algorithm := some "RS256",
    keyId := none, baseUrl := none }

/-- The client that `clientInit cfg3` constructs. -/
def client3 : Client :=
  { app_id := "app1", private_key := ⟨.ok .ecP256⟩, algorithm := "RS256",
    key_id := none, base_url := "", private_key_obj := .ecP256 }

/-- A config naming an algorithm outside the supported set. -/
def cfgBad : Config :=
  { appId := "app1", privateKey := ⟨.ok .rsa⟩, algorithm := some "HS256",
    keyId := none, baseUrl := none }

/-- A config whose `keyId` entry is configured as the empty string. -/
def cfgKid : Config :=
  { appId := "app1", privateKey := ⟨.ok .rsa⟩, algorithm := some "RS256",
    keyId := some "", baseUrl := none }

/-- The client that `clientInit cfgKid` constructs. -/
def clientKid : Client :=
  { app_id := "app1", private_key := ⟨.ok .rsa⟩, algorithm := "RS256",
    key_id := some "", base_url := "", private_key_obj := .rsa }

/-- A clock reading with a nonzero microsecond field. -/
def dt0 : DateTime := ⟨2024, 1, 1, 0, 0, 0, 123456⟩

/-- Uppercasing a character twice is the same as uppercasing it once. -/
theorem pyUpperChar_idem (c : Char) :
    pyUpperChar (pyUpperChar c) = pyUpperChar c := by
  by_cases h : 97 ≤ c.toNat ∧ c.toNat ≤ 122
  · obtain ⟨n, hn1, hn2, rfl⟩ : ∃ n, 97 ≤ n ∧ n ≤ 122 ∧ Char.ofNat n = c :=
      ⟨c.toNat, h.1, h.2, Char.ofNat_toNat c⟩
    interval_cases n <;> decide
  · simp [pyUpperChar, h]

/-- List form of the idempotence of uppercasing. -/
theorem map_pyUpperChar_idem (l : List Char) :
    (l.map pyUpperChar).map pyUpperChar = l.map pyUpperChar := by
  induction l with
  | nil => rfl
  | cons c t ih => simp [pyUpperChar_idem, ih]

/-- The model of `str.upper` is idempotent. -/
theorem pyUpper_idem (s : String) : pyUpper (pyUpper s) = pyUpper s :=
  String.ext (map_pyUpperChar_idem s.data)

/-- Splitting at the first newline of a newline-joined pair is
unambiguous when the left parts contain no newline. -/
theorem cancel_newline (l₁ : List Char) :
    ∀ (l₂ r₁ r₂ : List Char), '\n' ∉ l₁ → '\n' ∉ l₂ →
      l₁ ++ '\n' :: r₁ = l₂ ++ '\n' :: r₂ → l₁ = l₂ ∧ r₁ = r₂ := by
  induction l₁ with
  | nil =>
    intro l₂ r₁ r₂ h₁ h₂ h
    cases l₂ with
    | nil => simp at h; exact ⟨rfl, h⟩
    | cons c t =>
      simp at h
      obtain ⟨h1, -⟩ := h
      subst h1
      exact absurd (List.mem_cons_self _ _) h₂
  | cons c t ih =>
    intro l₂ r₁ r₂ h₁ h₂ h
    cases l₂ with
    | nil =>
      simp at h
      obtain ⟨h1, -⟩ := h
      subst h1
      exact absurd (List.mem_cons_self _ _) h₁
    | cons c' t' =>
      simp at h
      obtain ⟨hcc, hrest⟩ := h
      have hr := ih t' r₁ r₂ (fun hm => h₁ (List.mem_cons_of_mem _ hm))
        (fun hm => h₂ (List.mem_cons_of_mem _ hm)) hrest
      exact ⟨by rw [hcc, hr.1], hr.2⟩

/-- String form of `cancel_newline`. -/
theorem cancel_newline_str (s₁ r₁ s₂ r₂ : String) (h₁ : noNL s₁)
    (h₂ : noNL s₂) (h : s₁ ++ "\n" ++ r₁ = s₂ ++ "\n" ++ r₂) :
    s₁ = s₂ ∧ r₁ = r₂ := by
  have hd := congrArg String.data h
  simp only [String.data_append] at hd
  simp only [List.append_assoc, List.singleton_append] at hd
  have hr := cancel_newline s₁.data s₂.data r₁.data r₂.data h₁ h₂ hd
  exact ⟨String.ext hr.1, String.ext hr.2⟩

/-- Unfolding of `build_signature_string` when the body key holds an
actual string. -/
theorem build_ok (t m p a b : String) :
    build_signature_string ⟨t, m, p, a, some (some b)⟩ =
      .ok (t ++ "\n" ++ (pyUpper m ++ "\n" ++ (p ++ "\n" ++ (a ++ "\n" ++ b)))) :=
  rfl

/-- Every character emitted by the digit renderer is a decimal digit. -/
theorem natDigitsAux_digits (fuel : Nat) :
    ∀ n c, c ∈ natDigitsAux fuel n → ∃ d, d < 10 ∧ c = digitChar d := by
  induction fuel with
  | zero => intro n c hc; simp [natDigitsAux] at hc
  | succ f ih =>
    intro n c hc
    unfold natDigitsAux at hc
    by_cases h : n < 10
    · rw [if_pos h] at hc
      simp at hc
      exact ⟨n, h, hc⟩
    · rw [if_neg h] at hc
      rcases List.mem_append.mp hc with h1 | h2
      · exact ih _ _ h1
      · simp at h2
        exact ⟨n % 10, Nat.mod_lt _ (by omega), h2⟩

/-- No decimal digit is the plus sign. -/
theorem digitChar_ne_plus (d : Nat) (hd : d < 10) : digitChar d ≠ '+' := by
  interval_cases d <;> decide

/-- Zero-padded numbers never contain a plus sign. -/
theorem plus_not_mem_padNum (w n : Nat) : '+' ∉ (padNum w n).data := by
  intro hc
  unfold padNum at hc
  rcases List.mem_append.mp hc with h1 | h2
  · have := List.eq_of_mem_replicate h1
    exact absurd this (by decide)
  · obtain ⟨d, hd, he⟩ := natDigitsAux_digits _ _ _ h2
    exact digitChar_ne_plus d hd he.symm

/-- The date-and-time core of `isoformat` never contains a plus sign. -/
theorem plus_not_mem_isoBase (d : DateTime) : '+' ∉ (isoBase d).data := by
  intro hc
  unfold isoBase at hc
  simp only [String.data_append, List.append_assoc, List.mem_append] at hc
  rcases hc with h | h | h | h | h | h | h | h | h | h | h
  repeat'
    first
    | exact plus_not_mem_padNum _ _ h
    | exact absurd h (by decide)

/-- The fractional-second part of `isoformat` never contains a plus
sign. -/
theorem plus_not_mem_fracPart (d : DateTime) : '+' ∉ (fracPart d).data := by
  intro hc
  unfold fracPart at hc
  by_cases h : d.microsecond = 0
  · rw [if_pos h] at hc
    exact absurd hc (by decide)
  · rw [if_neg h] at hc
    simp only [String.data_append, List.mem_append] at hc
    rcases hc with h1 | h2
    · exact absurd h1 (by decide)
    · exact plus_not_mem_padNum _ _ h2

/-- Replacing the single trailing `+00:00` occurrence with `Z` when the
rest of the string contains no plus sign. -/
theorem pyReplaceAux_offset (l : List Char) (hl : '+' ∉ l) :
    pyReplaceAux (l.length + 6)
        (l ++ ['+', '0', '0', ':', '0', '0'])
        ['+', '0', '0', ':', '0', '0'] ['Z'] = l ++ ['Z'] := by
  induction l with
  | nil => rfl
  | cons c t ih =>
    have hc : ¬('+' = c) := fun he => hl (he ▸ List.mem_cons_self _ _)
    have ht : '+' ∉ t := fun hm => hl (List.mem_cons_of_mem _ hm)
    have hcond : listStartsWith ['+', '0', '0', ':', '0', '0']
        (c :: (t ++ ['+', '0', '0', ':', '0', '0'])) = false := by
      simp [listStartsWith, hc]
    show pyReplaceAux (t.length + 6 + 1)
        (c :: (t ++ ['+', '0', '0', ':', '0', '0']))
        ['+', '0', '0', ':', '0', '0'] ['Z'] = c :: (t ++ ['Z'])
    simp only [pyReplaceAux, hcond, List.isEmpty_cons, Bool.not_false,
      Bool.and_false, Bool.false_eq_true, if_false, List.cons.injEq, true_and]
    exact ih ht

/-- A successful `generate_signature` returns exactly the encoded
primitive output. -/
theorem generate_signature_ok (c : Client) (f : String → String)
    (d s : String) (h : generate_signature c f d = .ok s) : s = f d := by
  unfold generate_signature at h
  split at h
  · cases hk : c.private_key_obj <;> rw [hk] at h <;> simp at h
    exact h.symm
  · split at h
    · cases hk : c.private_key_obj <;> rw [hk] at h <;> simp at h <;>
        exact h.symm
    · simp at h

/-- C1: for every SignableRequest the canonical string is the five
fields in the order timestamp, uppercased method, path, appId, body,
joined by single newlines; in particular the spec's example request
canonicalizes to the expected string, which contains exactly four
newline characters. -/
theorem canonical_string_format :
    (∀ t m p a b : String,
      build_signature_string ⟨t, m, p, a, some (some b)⟩ =
        .ok (t ++ "\n" ++ (pyUpper m ++ "\n" ++ (p ++ "\n" ++ (a ++ "\n" ++ b))))) ∧
    build_signature_string
        ⟨"2024-01-01T00:00:00Z", "get", "/api/users", "app1", some (some "")⟩ =
      .ok "2024-01-01T00:00:00Z\nGET\n/api/users\napp1\n" ∧
    ("2024-01-01T00:00:00Z\nGET\n/api/users\napp1\n").data.count '\n' = 4 :=
  ⟨fun t m p a b => build_ok t m p a b, rfl, by decide⟩

/-- C2: the claim says an omitted or None body is replaced by the empty
string and the call succeeds; in the code the dict always contains the
key `'body'` with the value None, `data.get('body', '')` therefore
returns None, and `'\n'.join` raises TypeError — evaluated here at the
failing input `generate_signature_headers('GET', '/api/users')`. -/
theorem body_none_join_raises :
    generate_signature_headers client0 sigStub "GET" "/api/users" none none
        "2024-01-01T00:00:00Z" = .error .typeError :=
  rfl

/-- C3 counterexample: the configuration pairing algorithm RS256 with an
elliptic-curve key is accepted by construction, and the mismatch error
first occurs at signing-call time — refuting the claim that such a
configuration fails at construction. -/
theorem mismatch_accepted_at_construction_cex :
    clientInit cfg3 = .ok client3 ∧
    generate_signature client3 sigStub "msg" = .error .signingFailure :=
  ⟨rfl, rfl⟩

/-- Signing fails with the wrapped RuntimeError whenever the client's
algorithm family does not fit the kind of the loaded key object. -/
theorem generate_signature_mismatch (c : Client)
    (hmis : ((c.algorithm = "RS256" ∨ c.algorithm = "RS512") ∧
              c.private_key_obj ≠ .rsa) ∨
            ((c.algorithm = "ES256" ∨ c.algorithm = "ES512") ∧
              c.private_key_obj = .rsa))
    (sigBytes : String → String) (data : String) :
    generate_signature c sigBytes data = .error .signingFailure := by
  unfold generate_signature
  rcases hmis with ⟨halg, hkne⟩ | ⟨halg, hkeq⟩
  · rw [if_pos halg]
    cases hpk : c.private_key_obj with
    | rsa => exact absurd hpk hkne
    | ecP256 => rfl
    | ecP521 => rfl
  · have hneg : ¬(c.algorithm = "RS256" ∨ c.algorithm = "RS512") := by
      rcases halg with h | h <;> rw [h] <;> simp
    rw [if_neg hneg, if_pos halg, hkeq]

/-- C3 amended: construction succeeds for every supported algorithm
whenever the PEM key loads, regardless of key/algorithm compatibility;
an RSA algorithm with a non-RSA key, or an ECDSA algorithm with an RSA
key, fails only at signing time with the RuntimeError wrapper. -/
theorem mismatch_first_fails_at_sign_time (cfg : Config) (k : KeyKind)
    (hk : (cfg.privateKey).parsed = .ok k)
    (ha : (cfg.algorithm).getD "RS256" ∈ SUPPORTED_ALGORITHMS) :
    ∃ c : Client, clientInit cfg = .ok c ∧ c.private_key_obj = k ∧
      c.algorithm = (cfg.algorithm).getD "RS256" ∧
      ∀ (sigBytes : String → String) (data : String),
        (((c.algorithm = "RS256" ∨ c.algorithm = "RS512") ∧ k ≠ .rsa) ∨
         ((c.algorithm = "ES256" ∨ c.algorithm = "ES512") ∧ k = .rsa)) →
        generate_signature c sigBytes data = .error .signingFailure := by
  have hcont : SUPPORTED_ALGORITHMS.contains ((cfg.algorithm).getD "RS256") = true :=
    List.elem_iff.mpr ha
  refine ⟨{ app_id := cfg.appId, private_key := cfg.privateKey,
            algorithm := (cfg.algorithm).getD "RS256", key_id := cfg.keyId,
            base_url := (cfg.baseUrl).getD "", private_key_obj := k },
          ?_, rfl, rfl, ?_⟩
  · simp [clientInit, hcont, hk, ha]
  · intro sigBytes data hmis
    exact generate_signature_mismatch _ hmis sigBytes data

/-- C3 witness: the amended statement instantiated at the RS256
configuration holding an elliptic-curve key. -/
theorem mismatch_first_fails_at_sign_time_witness :
    ∃ c : Client, clientInit cfg3 = .ok c ∧ c.private_key_obj = .ecP256 ∧
      c.algorithm = ((cfg3.algorithm).getD "RS256") ∧
      ∀ (sigBytes : String → String) (data : String),
        (((c.algorithm = "RS256" ∨ c.algorithm = "RS512") ∧ KeyKind.ecP256 ≠ .rsa) ∨
         ((c.algorithm = "ES256" ∨ c.algorithm = "ES512") ∧ KeyKind.ecP256 = .rsa)) →
        generate_signature c sigBytes data = .error .signingFailure :=
  mismatch_first_fails_at_sign_time cfg3 .ecP256 rfl (by decide)

/-- C4 counterexample: at a clock reading with microsecond 123456 the
generated timestamp contains fractional-second digits (a dot, 27
characters instead of 20), refuting the claim that every produced
timestamp has the whole-second form YYYY-MM-DDTHH:MM:SSZ. -/
theorem timestamp_fractional_cex :
    generate_timestamp dt0 = "2024-01-01T00:00:00.123456Z" ∧
    '.' ∈ ("2024-01-01T00:00:00.123456Z" : String).data ∧
    ("2024-01-01T00:00:00.123456Z" : String).data.length = 27 :=
  ⟨rfl, by decide, by decide⟩

/-- C4 amended: every generated timestamp is the UTC ISO-8601 rendering
with the trailing `+00:00` offset replaced by the literal Z; it has the
whole-second form exactly when the clock's microsecond field is zero,
and otherwise carries six fractional-second digits. -/
theorem timestamp_shape (d : DateTime) :
    generate_timestamp d = isoBase d ++ fracPart d ++ "Z" := by
  apply String.ext
  show (pyReplace (isoformat d) "+00:00" "Z").data = _
  unfold pyReplace isoformat
  simp only [String.data_append]
  rw [List.length_append]
  have hm : '+' ∉ (isoBase d).data ++ (fracPart d).data := by
    intro hc
    rcases List.mem_append.mp hc with h | h
    · exact plus_not_mem_isoBase d h
    · exact plus_not_mem_fracPart d h
  exact pyReplaceAux_offset ((isoBase d).data ++ (fracPart d).data) hm

/-- C4 witness: the shape theorem evaluated at a whole-second clock
reading. -/
theorem timestamp_shape_witness :
    generate_timestamp ⟨2024, 1, 1, 0, 0, 0, 0⟩ =
      isoBase ⟨2024, 1, 1, 0, 0, 0, 0⟩ ++ fracPart ⟨2024, 1, 1, 0, 0, 0, 0⟩ ++ "Z" :=
  timestamp_shape ⟨2024, 1, 1, 0, 0, 0, 0⟩

/-- C5: construction fails with the unsupported-algorithm error exactly
when the configured algorithm (default RS256) lies outside the closed
set of the four supported names; inside the set that error can never be
produced. -/
theorem algorithm_closed_set (cfg : Config) :
    clientInit cfg =
        .error (.unsupportedAlgorithm ((cfg.algorithm).getD "RS256")) ↔
      (cfg.algorithm).getD "RS256" ∉ SUPPORTED_ALGORITHMS := by
  constructor
  · intro h hmem
    have hcont : SUPPORTED_ALGORITHMS.contains ((cfg.algorithm).getD "RS256") = true :=
      List.elem_iff.mpr hmem
    simp only [clientInit, hcont, if_true] at h
    rcases hp : (cfg.privateKey).parsed with e | k <;> rw [hp] at h <;>
      simp at h
  · intro hmem
    have hcont : SUPPORTED_ALGORITHMS.contains ((cfg.algorithm).getD "RS256") = false := by
      cases hb : SUPPORTED_ALGORITHMS.contains ((cfg.algorithm).getD "RS256") with
      | false => rfl
      | true => exact absurd (List.elem_iff.mp hb) hmem
    simp only [clientInit]
    rw [if_neg (by rw [hcont]; exact Bool.false_ne_true)]

/-- C5 witness: the algorithm name HS256 is rejected at construction. -/
theorem algorithm_closed_set_witness :
    clientInit cfgBad = .error (.unsupportedAlgorithm "HS256") :=
  (algorithm_closed_set cfgBad).mpr (by decide)

/-- C6: on requests whose five fields are newline-free and whose method
is already uppercased, the canonical string determines every field —
canonicalization is injective under the stated precondition. -/
theorem canonical_injective (t₁ m₁ p₁ a₁ b₁ t₂ m₂ p₂ a₂ b₂ : String)
    (ht₁ : noNL t₁) (hm₁ : noNL m₁) (hp₁ : noNL p₁) (ha₁ : noNL a₁)
    (ht₂ : noNL t₂) (hm₂ : noNL m₂) (hp₂ : noNL p₂) (ha₂ : noNL a₂)
    (hu₁ : pyUpper m₁ = m₁) (hu₂ : pyUpper m₂ = m₂)
    (h : build_signature_string ⟨t₁, m₁, p₁, a₁, some (some b₁)⟩ =
         build_signature_string ⟨t₂, m₂, p₂, a₂, some (some b₂)⟩) :
    t₁ = t₂ ∧ m₁ = m₂ ∧ p₁ = p₂ ∧ a₁ = a₂ ∧ b₁ = b₂ := by
  rw [build_ok, build_ok, hu₁, hu₂] at h
  injection h with h'
  obtain ⟨et, h2⟩ := cancel_newline_str _ _ _ _ ht₁ ht₂ h'
  obtain ⟨em, h3⟩ := cancel_newline_str _ _ _ _ hm₁ hm₂ h2
  obtain ⟨ep, h4⟩ := cancel_newline_str _ _ _ _ hp₁ hp₂ h3
  obtain ⟨ea, eb⟩ := cancel_newline_str _ _ _ _ ha₁ ha₂ h4
  exact ⟨et, em, ep, ea, eb⟩

/-- C6 witness: the injectivity theorem applied at a concrete
newline-free uppercased request. -/
theorem canonical_injective_witness :
    ("t" : String) = "t" ∧ ("GET" : String) = "GET" ∧
    ("/p" : String) = "/p" ∧ ("a" : String) = "a" ∧ ("" : String) = "" :=
  canonical_injective "t" "GET" "/p" "a" "" "t" "GET" "/p" "a" ""
    (by decide) (by decide) (by decide) (by decide)
    (by decide) (by decide) (by decide) (by decide)
    (by decide) (by decide) rfl

/-- C7 amended: every successful call returns exactly the keys
X-Signature, X-Timestamp, X-App-Id, plus X-Key-Id exactly when the
configured keyId is truthy, i.e. present and non-empty. -/
theorem header_keys_exact (c : Client) (sigBytes : String → String)
    (m p : String) (body : Option String) (ts : Option String)
    (now : String) (hs : List (String × String))
    (h : generate_signature_headers c sigBytes m p body ts now = .ok hs) :
    hs.map Prod.fst =
      ["X-Signature", "X-Timestamp", "X-App-Id"] ++
        (if pyTruthy c.key_id then ["X-Key-Id"] else []) := by
  simp only [generate_signature_headers] at h
  split at h
  · exact absurd h (by simp)
  · split at h
    · exact absurd h (by simp)
    · injection h with h2
      rw [← h2]
      by_cases hk : pyTruthy c.key_id <;> simp [hk]

/-- C7 witness: the header-key theorem applied to a concrete successful
call of the RS256 client with no configured keyId. -/
theorem header_keys_exact_witness :
    ([(("X-Signature" : String), sigStub "T\nGET\n/p\napp1\n"),
      ("X-Timestamp", "T"), ("X-App-Id", "app1")]).map Prod.fst =
      ["X-Signature", "X-Timestamp", "X-App-Id"] ++
        (if pyTruthy client0.key_id then ["X-Key-Id"] else []) :=
  header_keys_exact client0 sigStub "GET" "/p" (some "") (some "T") "NOW"
    _ rfl

/-- C7 counterexample: a client constructed from a config that does
configure a keyId — the empty string — emits no X-Key-Id header on a
successful call, refuting "X-Key-Id exactly when a keyId is
configured". -/
theorem empty_keyid_no_header_cex :
    clientInit cfgKid = .ok clientKid ∧
    clientKid.key_id = some "" ∧
    generate_signature_headers clientKid sigStub "GET" "/p" (some "")
        (some "T") "NOW" =
      .ok [("X-Signature", "c2ln"), ("X-Timestamp", "T"), ("X-App-Id", "app1")] ∧
    List.lookup "X-Key-Id"
        [(("X-Signature" : String), ("c2ln" : String)),
         ("X-Timestamp", "T"), ("X-App-Id", "app1")] = none :=
  ⟨rfl, rfl, rfl, rfl⟩

/-- C8 amended: whenever a non-empty timestampOverride is supplied and
the call succeeds, the override is the timestamp placed in X-Timestamp
and in the canonical string that is signed; the clock string is not
consulted. -/
theorem override_timestamp_used (c : Client) (sigBytes : String → String)
    (m p b t now : String) (hs : List (String × String)) (ht : t ≠ "")
    (h : generate_signature_headers c sigBytes m p (some b) (some t) now =
         .ok hs) :
    hs = [("X-Signature", sigBytes (pyJoin "\n" [t, pyUpper m, p, c.app_id, b])),
          ("X-Timestamp", t), ("X-App-Id", c.app_id)] ++
        (if pyTruthy c.key_id then [("X-Key-Id", (c.key_id).getD "")] else []) := by
  simp only [generate_signature_headers, pyOrElse, if_neg ht, build_ok,
    pyUpper_idem] at h
  split at h
  · exact absurd h (by simp)
  · rename_i sigv heq
    injection h with h2
    rw [← h2, generate_signature_ok c sigBytes _ _ heq]
    by_cases hk : pyTruthy c.key_id <;> simp [hk, pyJoin]

/-- C8 witness: the override theorem applied to a concrete call with
override T0. -/
theorem override_timestamp_used_witness :
    ([(("X-Signature" : String), sigStub "T0\nGET\n/p\napp1\nB"),
      ("X-Timestamp", "T0"), ("X-App-Id", "app1")] : List (String × String)) =
      [("X-Signature", sigStub (pyJoin "\n" ["T0", pyUpper "get", "/p",
          client0.app_id, "B"])),
       ("X-Timestamp", "T0"), ("X-App-Id", client0.app_id)] ++
        (if pyTruthy client0.key_id then [("X-Key-Id", (client0.key_id).getD "")]
         else []) :=
  override_timestamp_used client0 sigStub "get" "/p" "B" "T0" "NOW" _
    (by decide) rfl

/-- C8 counterexample: an empty-string override is a supplied override,
yet Python's falsy `or` discards it and the clock string is used,
refuting the claim for that input. -/
theorem empty_override_ignored_cex :
    generate_signature_headers client0 sigStub "GET" "/p" (some "") (some "")
        "2025-06-01T00:00:00Z" =
      .ok [("X-Signature", "c2ln"), ("X-Timestamp", "2025-06-01T00:00:00Z"),
           ("X-App-Id", "app1")] ∧
    ("2025-06-01T00:00:00Z" : String) ≠ "" :=
  ⟨rfl, by decide⟩

/-- C9: canonicalization is deterministic — two calls on identical
input values yield identical output. -/
theorem canonicalization_deterministic (d₁ d₂ : SigData) (h : d₁ = d₂) :
    build_signature_string d₁ = build_signature_string d₂ := by
  rw [h]

/-- C9 witness: determinism at a concrete request. -/
theorem canonicalization_deterministic_witness :
    build_signature_string ⟨"t", "GET", "/p", "a", some (some "")⟩ =
      build_signature_string ⟨"t", "GET", "/p", "a", some (some "")⟩ :=
  canonicalization_deterministic _ _ rfl

/-- C10: the produced headers — in particular the canonical string that
is signed — are invariant under the letter case of the supplied HTTP
method, because uppercasing is applied and is idempotent. -/
theorem method_case_invariant (c : Client) (sigBytes : String → String)
    (m p : String) (body : Option String) (ts : Option String)
    (now : String) :
    generate_signature_headers c sigBytes m p body ts now =
      generate_signature_headers c sigBytes (pyUpper m) p body ts now := by
  simp only [generate_signature_headers, pyUpper_idem]

/-- C10 witness: case invariance at a concrete lowercase method. -/
theorem method_case_invariant_witness :
    generate_signature_headers client0 sigStub "get" "/p" (some "") (some "T")
        "NOW" =
      generate_signature_headers client0 sigStub (pyUpper "get") "/p" (some "")
        (some "T") "NOW" :=
  method_case_invariant client0 sigStub "get" "/p" (some "") (some "T") "NOW"

end PySig
